import Mathlib

/-!
Verification of the QFuture completion-bridge adapter
(`src/qcoro/core/qcorofuture.h`).

The adapter converts a `QFuture<T>` into a coroutine awaiter.  We give a
shallow embedding of its components:

* `QFutureState` models the observable state of the external collaborator
  `QFuture<T>` as described in spec section 6: the finished / canceled
  flags, the result slot at index 0 (`isResultReadyAt(0)` is the slot
  being populated) and a possible stored producer failure that
  `waitForFinished()` re-raises.
* `WaitForFinishedOperationBase.await_ready` / `await_suspend` embed the
  awaiter core (lines 30-55 of the source).
* The resume lambda registered on both completion channels (lines 40-49)
  is embedded as a step function `resumeCallback` on an operation state
  `OpState`, emitting a trace of the side effects it performs.
* `WaitForFinishedOperationImplT.await_resume`,
  `WaitForFinishedOperationImplVoid.await_resume` and
  `TakeResultOperation.await_resume` embed the three result-extraction
  variants (lines 65-84, 91-98, 110-129).  Each is written
  state-passing, returning the future state after the call, so that the
  frame conditions on the future handle can be stated.
* The entry points `waitForFinished` / `result` / `takeResult`
  (lines 151-181) are embedded together with the compile-time variant
  selection (`std::conditional_t`, line 101, and the `requires` clause,
  line 179).

C++ exceptions become `Except`; the machine-level atomic
compare-and-swap on the latch becomes an atomic test-and-set step in the
interleaving model (each callback invocation runs its latch check as one
step, which is exactly the atomicity the `std::atomic` CAS provides).
Default constructibility of `T` is modelled by an `Option T` parameter:
`some d` means `T` is default constructible with default value `d`,
`none` means it is not.
-/

/-- A stored producer-side failure (the exception object a `QFuture`
producer recorded).  Only its identity matters. -/
structure QException where
  msg : String
deriving DecidableEq, Repr

/-- Observable state of the external `QFuture<T>` collaborator (spec
section 6): `isFinished`, `isCanceled`, the result slot at index 0
(`result = some v` iff `isResultReadyAt(0)`), and a failure recorded by
the producer, re-raised by `waitForFinished()`. -/
structure QFutureState (T : Type) where
  finished : Bool
  canceled : Bool
  result : Option T
  exception : Option QException
deriving DecidableEq, Repr

/-- `QFuture::isFinished()`. -/
def QFutureState.isFinished {T : Type} (f : QFutureState T) : Bool :=
  f.finished

/-- `QFuture::isCanceled()`. -/
def QFutureState.isCanceled {T : Type} (f : QFutureState T) : Bool :=
  f.canceled

/-- `QFuture::isResultReadyAt(0)`: the result slot at index 0 is
populated. -/
def QFutureState.isResultReadyAt0 {T : Type} (f : QFutureState T) : Bool :=
  f.result.isSome

/-- `QFuture::waitForFinished()` called on an already finished future
(spec section 6: bounded synchronization, used only post-signal): its
only externally visible effect is to re-raise a failure recorded by the
producer. -/
def QFutureState.waitForFinished {T : Type} (f : QFutureState T) :
    Except QException Unit :=
  match f.exception with
  | some e => Except.error e
  | none => Except.ok ()

/-- The failures the extraction step can surface into the awaiting
coroutine (spec section 7). -/
inductive ExtractError where
  /-- `throw std::runtime_error("QFuture finished without a result")`. -/
  | resultNotReady : ExtractError
  /-- `throw std::runtime_error("QFuture was invalid or canceled")`. -/
  | invalidOrCanceled : ExtractError
  /-- A producer-recorded failure re-raised verbatim by
  `waitForFinished()`. -/
  | propagated : QException → ExtractError
deriving DecidableEq, Repr

/-- `WaitForFinishedOperationBase::await_ready` (source lines 30-32):
`mFuture.isFinished() || mFuture.isCanceled()`. -/
def WaitForFinishedOperationBase.await_ready {T : Type}
    (f : QFutureState T) : Bool :=
  f.isFinished || f.isCanceled

/-- State of one await operation after `await_suspend` has run: the
single-fire latch (`done`, the `std::atomic<bool>`), the two channel
subscriptions (`QMetaObject::Connection`s, lines 51-52), whether
`watcher->deleteLater()` has been called (disposal scheduled on the
event loop, deferred), whether the watcher has actually been destroyed,
and how many times the captured coroutine handle has been resumed. -/
structure OpState where
  done : Bool
  finishedConnected : Bool
  canceledConnected : Bool
  disposalScheduled : Bool
  watcherDisposed : Bool
  resumeCount : Nat
deriving DecidableEq, Repr

/-- The operation state `await_suspend` (lines 34-55) establishes before
returning: latch unset, both channels subscribed, watcher alive, the
coroutine not yet resumed. -/
def suspendInit : OpState :=
  { done := false
    finishedConnected := true
    canceledConnected := true
    disposalScheduled := false
    watcherDisposed := false
    resumeCount := 0 }

/-- Side effects a callback invocation can perform, in the order it
performs them. -/
inductive Event where
  /-- `QObject::disconnect(*finished)` (line 45). -/
  | disconnectFinished : Event
  /-- `QObject::disconnect(*canceled)` (line 46). -/
  | disconnectCanceled : Event
  /-- `watcher->deleteLater()` (line 47): disposal scheduled, not
  performed inline. -/
  | scheduleDisposal : Event
  /-- `awaitingCoroutine.resume()` (line 48). -/
  | resumeCoroutine : Event
deriving DecidableEq, Repr

/-- One invocation of the `resume` lambda (source lines 40-49), the
closure both completion channels are connected to.  The
`compare_exchange_strong(expected=false, true)` on the shared
`std::atomic<bool>` either fails (the latch was already taken: return
immediately, no side effects, empty trace) or wins (set the latch, then
disconnect both subscriptions, schedule the watcher's disposal via
`deleteLater`, and resume the coroutine, in that order).  Returns the
new operation state together with the trace of effects performed. -/
def resumeCallback (s : OpState) : OpState × List Event :=
  if s.done then
    (s, [])
  else
    ({ done := true
       finishedConnected := false
       canceledConnected := false
       disposalScheduled := true
       watcherDisposed := s.watcherDisposed
       resumeCount := s.resumeCount + 1 },
     [Event.disconnectFinished, Event.disconnectCanceled,
      Event.scheduleDisposal, Event.resumeCoroutine])

/-- Which completion channel fired.  Both channels are connected to the
same `resume` closure (lines 51-52), so the delivered invocation is the
same either way; the channel only records which signal caused it. -/
inductive Channel where
  | finishedSignal : Channel
  | canceledSignal : Channel
deriving DecidableEq, Repr

/-- Run a sequence of completion-callback invocations (each an atomic
callback execution, any interleaving of finished / canceled firings,
including both firing or a channel firing repeatedly), accumulating the
trace of side effects. -/
def runSignals (s : OpState) : List Channel → OpState × List Event
  | [] => (s, [])
  | _ :: cs =>
    let p := resumeCallback s
    let q := runSignals p.1 cs
    (q.1, p.2 ++ q.2)

/-- `WaitForFinishedOperationImplT::await_resume` (source lines 65-84),
state-passing over the future handle.  `defaultVal` models the
`if constexpr (std::is_default_constructible_v<T>)` split: `some d`
means `T` is default constructible and `T{}` is `d`; `none` means it is
not.  If the future is finished: `waitForFinished()` (re-raising any
stored producer failure), then the `isResultReadyAt(0)` check, then
`result()` (a copy, leaving the future unchanged).  If not finished:
the default value, or the invalid-or-canceled failure. -/
def WaitForFinishedOperationImplT.await_resume {T : Type}
    (defaultVal : Option T) (f : QFutureState T) :
    Except ExtractError T × QFutureState T :=
  if f.isFinished then
    match f.waitForFinished with
    | Except.error e => (Except.error (ExtractError.propagated e), f)
    | Except.ok () =>
      if f.isResultReadyAt0 then
        match f.result with
        | some v => (Except.ok v, f)
        | none => (Except.error ExtractError.resultNotReady, f)
      else
        (Except.error ExtractError.resultNotReady, f)
  else
    match defaultVal with
    | some d => (Except.ok d, f)
    | none => (Except.error ExtractError.invalidOrCanceled, f)

/-- `WaitForFinishedOperationImplVoid::await_resume` (source lines
91-98), state-passing over the future handle.  If finished it calls
`waitForFinished()`, whose only visible effect is re-raising a stored
producer failure; otherwise it does nothing. -/
def WaitForFinishedOperationImplVoid.await_resume
    (f : QFutureState Unit) :
    Except ExtractError Unit × QFutureState Unit :=
  if f.isFinished then
    match f.waitForFinished with
    | Except.error e => (Except.error (ExtractError.propagated e), f)
    | Except.ok () => (Except.ok (), f)
  else
    (Except.ok (), f)

/-- `QFuture::takeResult()` (spec section 6): destructive retrieval; the
stored result is moved out of the shared result slot, which is left
empty. -/
def QFutureState.takeResult {T : Type} (f : QFutureState T) :
    Option (T × QFutureState T) :=
  match f.result with
  | some v => some (v, { f with result := none })
  | none => none

/-- `TakeResultOperation::await_resume` (source lines 110-129),
state-passing over the future handle.  Same branching as the copy
variant, but the successful branch calls `takeResult()`, moving the
value out of the future's result slot. -/
def TakeResultOperation.await_resume {T : Type}
    (defaultVal : Option T) (f : QFutureState T) :
    Except ExtractError T × QFutureState T :=
  if f.isFinished then
    match f.waitForFinished with
    | Except.error e => (Except.error (ExtractError.propagated e), f)
    | Except.ok () =>
      if f.isResultReadyAt0 then
        match f.takeResult with
        | some (v, f') => (Except.ok v, f')
        | none => (Except.error ExtractError.resultNotReady, f)
      else
        (Except.error ExtractError.resultNotReady, f)
  else
    match defaultVal with
    | some d => (Except.ok d, f)
    | none => (Except.error ExtractError.invalidOrCanceled, f)

/-- Result of the ready-check phase of `co_await` (the standard awaiter
protocol the host coroutine runtime implements): either the future was
already terminal and the caller proceeds straight to extraction — no
suspension, no watcher, no subscriptions — or the operation suspends
with the state `await_suspend` established. -/
inductive AwaitPhase where
  | proceedDirect : AwaitPhase
  | suspended : OpState → AwaitPhase
deriving DecidableEq, Repr

/-- The ready/suspend phase of `co_await` on the awaiter: if
`await_ready` returns true the coroutine does not suspend and
`await_suspend` is never invoked; otherwise `await_suspend` runs
(lines 34-55) and the operation is suspended in state `suspendInit`. -/
def awaitPhase {T : Type} (f : QFutureState T) : AwaitPhase :=
  if WaitForFinishedOperationBase.await_ready f then
    AwaitPhase.proceedDirect
  else
    AwaitPhase.suspended suspendInit

/-- Whether a `QFutureWatcher` was allocated in this phase (line 35 runs
only inside `await_suspend`). -/
def watcherAllocated : AwaitPhase → Bool
  | AwaitPhase.proceedDirect => false
  | AwaitPhase.suspended _ => true

/-- Whether any channel subscription exists in this phase (lines 51-52
run only inside `await_suspend`). -/
def subscriptionCreated : AwaitPhase → Bool
  | AwaitPhase.proceedDirect => false
  | AwaitPhase.suspended s => s.finishedConnected || s.canceledConnected

/-- `WaitForFinishedOperationBase::await_suspend` (lines 34-55) as a
state-passing operation on the future handle: it allocates the watcher,
creates the latch, subscribes both channels and calls
`watcher->setFuture(mFuture)` — all observations of the future, which
it leaves unchanged. -/
def WaitForFinishedOperationBase.await_suspend {T : Type}
    (f : QFutureState T) : OpState × QFutureState T :=
  (suspendInit, f)

/-- The shape of the awaiter's result type, deciding the compile-time
variant selection. -/
inductive ResultShape where
  | voidShape : ResultShape
  | nonvoidShape : ResultShape
deriving DecidableEq, Repr

/-- The three result-extraction variants. -/
inductive AwaiterVariant where
  | copyVariant : AwaiterVariant
  | voidVariant : AwaiterVariant
  | moveVariant : AwaiterVariant
deriving DecidableEq, Repr

/-- The coroutine-returning entry points of `QCoroFuture`. -/
inductive EntryPoint where
  | waitForFinishedEP : EntryPoint
  | resultEP : EntryPoint
  | takeResultEP : EntryPoint
deriving DecidableEq, Repr

/-- The `WaitForFinishedOperation` alias (source lines 101-102):
`std::conditional_t<std::is_void_v<T>, WaitForFinishedOperationImplVoid,
WaitForFinishedOperationImplT>`. -/
def waitForFinishedOperationFor : ResultShape → AwaiterVariant
  | ResultShape.voidShape => AwaiterVariant.voidVariant
  | ResultShape.nonvoidShape => AwaiterVariant.copyVariant

/-- The awaiter variant constructed by `QCoroFuture::waitForFinished`
(source lines 151-153: `co_await WaitForFinishedOperation{mFuture}`),
together with the future it is constructed over. -/
def QCoroFuture.waitForFinishedAwaiter {T : Type} (sh : ResultShape)
    (f : QFutureState T) : AwaiterVariant × QFutureState T :=
  (waitForFinishedOperationFor sh, f)

/-- The awaiter variant constructed by `QCoroFuture::result` (source
lines 163-165: `co_await WaitForFinishedOperation{mFuture}`), together
with the future it is constructed over. -/
def QCoroFuture.resultAwaiter {T : Type} (sh : ResultShape)
    (f : QFutureState T) : AwaiterVariant × QFutureState T :=
  (waitForFinishedOperationFor sh, f)

/-- The awaiter variant constructed by `QCoroFuture::takeResult`
(source lines 179-181: `co_await TakeResultOperation<T>{mFuture}`),
together with the future it is constructed over. -/
def QCoroFuture.takeResultAwaiter {T : Type}
    (f : QFutureState T) : AwaiterVariant × QFutureState T :=
  (AwaiterVariant.moveVariant, f)

/-- Extraction behavior of a non-void entry point: `waitForFinished`
and `result` both extract through `WaitForFinishedOperation` (for
non-void `T` the copy variant, lines 151-153 and 163-165);
`takeResult` extracts through `TakeResultOperation` (lines 179-181). -/
def runEntryNonVoid {T : Type} (ep : EntryPoint) (defaultVal : Option T)
    (f : QFutureState T) : Except ExtractError T × QFutureState T :=
  match ep with
  | EntryPoint.waitForFinishedEP =>
    WaitForFinishedOperationImplT.await_resume defaultVal f
  | EntryPoint.resultEP =>
    WaitForFinishedOperationImplT.await_resume defaultVal f
  | EntryPoint.takeResultEP =>
    TakeResultOperation.await_resume defaultVal f

/-- Extraction behavior of a void entry point: both extract through the
void variant; `takeResult` is not offered for void. -/
def runEntryVoid (ep : EntryPoint) (f : QFutureState Unit) :
    Except ExtractError Unit × QFutureState Unit :=
  match ep with
  | EntryPoint.waitForFinishedEP =>
    WaitForFinishedOperationImplVoid.await_resume f
  | EntryPoint.resultEP =>
    WaitForFinishedOperationImplVoid.await_resume f
  | EntryPoint.takeResultEP =>
    WaitForFinishedOperationImplVoid.await_resume f

/-- The entry points `QCoroFuture<T>` offers for each result shape:
`takeResult` carries `requires (!std::is_void_v<T>)` (line 179), so it
is not offered when `T` is void. -/
def offeredEntryPoints : ResultShape → List EntryPoint
  | ResultShape.voidShape =>
    [EntryPoint.waitForFinishedEP, EntryPoint.resultEP]
  | ResultShape.nonvoidShape =>
    [EntryPoint.waitForFinishedEP, EntryPoint.resultEP,
     EntryPoint.takeResultEP]

theorem resumeCallback_of_done (s : OpState) (h : s.done = true) :
    resumeCallback s = (s, []) := by
  simp [resumeCallback, h]

theorem runSignals_of_done (s : OpState) (h : s.done = true) :
    ∀ cs : List Channel, runSignals s cs = (s, []) := by
  intro cs
  induction cs with
  | nil => rfl
  | cons c cs ih =>
    simp [runSignals, resumeCallback_of_done s h, ih]

theorem runSignals_suspendInit (c : Channel) (cs : List Channel) :
    runSignals suspendInit (c :: cs) =
      ({ done := true
         finishedConnected := false
         canceledConnected := false
         disposalScheduled := true
         watcherDisposed := false
         resumeCount := 1 },
       [Event.disconnectFinished, Event.disconnectCanceled,
        Event.scheduleDisposal, Event.resumeCoroutine]) := by
  have h1 : resumeCallback suspendInit =
      ({ done := true
         finishedConnected := false
         canceledConnected := false
         disposalScheduled := true
         watcherDisposed := false
         resumeCount := 1 }, [Event.disconnectFinished,
          Event.disconnectCanceled, Event.scheduleDisposal,
          Event.resumeCoroutine]) := by
    decide
  have h2 := runSignals_of_done
    { done := true
      finishedConnected := false
      canceledConnected := false
      disposalScheduled := true
      watcherDisposed := false
      resumeCount := 1 } rfl cs
  simp [runSignals, h1, h2]

/-- C1: for a future not finished when the await began (so that the
operation suspended in `suspendInit`), any nonempty sequence of
invocations of the registered completion callbacks — finished firing,
canceled firing, or both in either order — resumes the coroutine
exactly once: the resulting resume count is 1, the resume event occurs
exactly once in the trace, the whole trace is the single winning
disconnect-dispose-resume sequence, and an invocation that loses the
latch (the atomic false-to-true compare-and-swap already taken)
performs no side effects: it leaves the state unchanged and emits no
events. -/
theorem c1_exactly_once_resume (sigs : List Channel) (hne : sigs ≠ [])
    (s : OpState) (hdone : s.done = true) :
    (runSignals suspendInit sigs).1.resumeCount = 1 ∧
    (runSignals suspendInit sigs).2.count Event.resumeCoroutine = 1 ∧
    (runSignals suspendInit sigs).2 =
      [Event.disconnectFinished, Event.disconnectCanceled,
       Event.scheduleDisposal, Event.resumeCoroutine] ∧
    resumeCallback s = (s, []) := by
  cases sigs with
  | nil => exact absurd rfl hne
  | cons c cs =>
    rw [runSignals_suspendInit c cs]
    refine ⟨rfl, by decide, rfl, resumeCallback_of_done s hdone⟩

theorem c1_exactly_once_resume_witness :
    (runSignals suspendInit
      [Channel.finishedSignal, Channel.canceledSignal]).1.resumeCount = 1 ∧
    (runSignals suspendInit
      [Channel.finishedSignal, Channel.canceledSignal]).2.count
        Event.resumeCoroutine = 1 ∧
    (runSignals suspendInit
      [Channel.finishedSignal, Channel.canceledSignal]).2 =
      [Event.disconnectFinished, Event.disconnectCanceled,
       Event.scheduleDisposal, Event.resumeCoroutine] ∧
    resumeCallback
      { done := true
        finishedConnected := false
        canceledConnected := false
        disposalScheduled := true
        watcherDisposed := false
        resumeCount := 1 } =
      ({ done := true
         finishedConnected := false
         canceledConnected := false
         disposalScheduled := true
         watcherDisposed := false
         resumeCount := 1 }, []) :=
  c1_exactly_once_resume
    [Channel.finishedSignal, Channel.canceledSignal] (by decide)
    { done := true
      finishedConnected := false
      canceledConnected := false
      disposalScheduled := true
      watcherDisposed := false
      resumeCount := 1 } (by decide)

/-- Every occurrence of the coroutine-resume event in a trace is
strictly preceded by both channel disconnections and by the scheduling
of the watcher's disposal. -/
def teardownBeforeResume (tr : List Event) : Prop :=
  ∀ pre post, tr = pre ++ Event.resumeCoroutine :: post →
    Event.disconnectFinished ∈ pre ∧ Event.disconnectCanceled ∈ pre ∧
    Event.scheduleDisposal ∈ pre

theorem teardownBeforeResume_winner :
    teardownBeforeResume
      [Event.disconnectFinished, Event.disconnectCanceled,
       Event.scheduleDisposal, Event.resumeCoroutine] := by
  intro pre post h
  rcases pre with _ | ⟨a, _ | ⟨b, _ | ⟨c, _ | ⟨d, rest⟩⟩⟩⟩ <;> simp_all

theorem teardownBeforeResume_nil : teardownBeforeResume [] := by
  intro pre post h
  simp at h

/-- C3: in every await operation that suspends, teardown strictly
precedes resumption: for any sequence of completion-callback
invocations starting from the suspended state, every resume event in
the trace is strictly preceded by the disconnection of both channel
subscriptions and by the scheduling of the watcher's disposal; the
disposal is deferred, never performed inline (the watcher is still
undisposed when the run ends), and whenever the coroutine has been
resumed, both subscriptions are disconnected and the disposal has been
scheduled. -/
theorem c3_teardown_before_resume (sigs : List Channel) :
    teardownBeforeResume (runSignals suspendInit sigs).2 ∧
    (runSignals suspendInit sigs).1.watcherDisposed = false ∧
    (0 < (runSignals suspendInit sigs).1.resumeCount →
      (runSignals suspendInit sigs).1.finishedConnected = false ∧
      (runSignals suspendInit sigs).1.canceledConnected = false ∧
      (runSignals suspendInit sigs).1.disposalScheduled = true) := by
  cases sigs with
  | nil => exact ⟨teardownBeforeResume_nil, rfl, by intro h; exact absurd h (by decide)⟩
  | cons c cs =>
    rw [runSignals_suspendInit c cs]
    exact ⟨teardownBeforeResume_winner, rfl, fun _ => ⟨rfl, rfl, rfl⟩⟩

theorem c3_teardown_before_resume_witness :
    Event.disconnectFinished ∈
        [Event.disconnectFinished, Event.disconnectCanceled,
         Event.scheduleDisposal] ∧
    Event.disconnectCanceled ∈
        [Event.disconnectFinished, Event.disconnectCanceled,
         Event.scheduleDisposal] ∧
    Event.scheduleDisposal ∈
        [Event.disconnectFinished, Event.disconnectCanceled,
         Event.scheduleDisposal] ∧
    (runSignals suspendInit [Channel.canceledSignal]).1.watcherDisposed
        = false ∧
    (runSignals suspendInit
        [Channel.canceledSignal]).1.finishedConnected = false :=
  ⟨(c3_teardown_before_resume [Channel.canceledSignal]).1
      [Event.disconnectFinished, Event.disconnectCanceled,
       Event.scheduleDisposal] []
      (by rw [runSignals_suspendInit]; rfl) |>.1,
   (c3_teardown_before_resume [Channel.canceledSignal]).1
      [Event.disconnectFinished, Event.disconnectCanceled,
       Event.scheduleDisposal] []
      (by rw [runSignals_suspendInit]; rfl) |>.2.1,
   (c3_teardown_before_resume [Channel.canceledSignal]).1
      [Event.disconnectFinished, Event.disconnectCanceled,
       Event.scheduleDisposal] []
      (by rw [runSignals_suspendInit]; rfl) |>.2.2,
   (c3_teardown_before_resume [Channel.canceledSignal]).2.1,
   ((c3_teardown_before_resume [Channel.canceledSignal]).2.2
      (by rw [runSignals_suspendInit]; exact Nat.zero_lt_one)).1⟩

/-- C2: the ready-check returns true exactly when the future is already
finished or already canceled, and whenever it returns true the
operation proceeds straight to extraction without suspending: no
watcher is allocated and no subscription to either completion channel
is created. -/
theorem c2_ready_check (T : Type) (f : QFutureState T) :
    (WaitForFinishedOperationBase.await_ready f = true ↔
      f.isFinished = true ∨ f.isCanceled = true) ∧
    (WaitForFinishedOperationBase.await_ready f = true →
      awaitPhase f = AwaitPhase.proceedDirect ∧
      watcherAllocated (awaitPhase f) = false ∧
      subscriptionCreated (awaitPhase f) = false) := by
  constructor
  · simp [WaitForFinishedOperationBase.await_ready]
  · intro h
    simp [awaitPhase, h, watcherAllocated, subscriptionCreated]

theorem c2_ready_check_witness :
    WaitForFinishedOperationBase.await_ready
        ({ finished := true, canceled := false, result := some 42,
           exception := none } : QFutureState Nat) = true ∧
    awaitPhase
        ({ finished := true, canceled := false, result := some 42,
           exception := none } : QFutureState Nat) =
      AwaitPhase.proceedDirect ∧
    watcherAllocated (awaitPhase
        ({ finished := true, canceled := false, result := some 42,
           exception := none } : QFutureState Nat)) = false ∧
    subscriptionCreated (awaitPhase
        ({ finished := true, canceled := false, result := some 42,
           exception := none } : QFutureState Nat)) = false :=
  ⟨by decide,
   (c2_ready_check Nat
      { finished := true, canceled := false, result := some 42,
        exception := none }).2 (by decide)⟩

/-- C4: for every result type (whatever its default-constructibility,
i.e. for every `defaultVal`), copy-result extraction on a finished
future performs the bounded synchronization step (which completes
normally as no producer failure is recorded) and then: if a result is
present at index 0 it returns a copy of that result, leaving the future
unchanged; if no result is present despite the future reporting
finished, it fails with the ResultNotReady error — always a failure,
for every `defaultVal`. -/
theorem c4_copy_extract_finished {T : Type} (defaultVal : Option T)
    (f : QFutureState T) (hfin : f.finished = true)
    (hexc : f.exception = none) :
    (∀ v, f.result = some v →
      WaitForFinishedOperationImplT.await_resume defaultVal f =
        (Except.ok v, f)) ∧
    (f.result = none →
      WaitForFinishedOperationImplT.await_resume defaultVal f =
        (Except.error ExtractError.resultNotReady, f)) := by
  constructor
  · intro v hv
    simp [WaitForFinishedOperationImplT.await_resume,
      QFutureState.isFinished, hfin, QFutureState.waitForFinished, hexc,
      QFutureState.isResultReadyAt0, hv]
  · intro hv
    simp [WaitForFinishedOperationImplT.await_resume,
      QFutureState.isFinished, hfin, QFutureState.waitForFinished, hexc,
      QFutureState.isResultReadyAt0, hv]

theorem c4_copy_extract_finished_witness :
    WaitForFinishedOperationImplT.await_resume (some 0)
        ({ finished := true, canceled := false, result := some 42,
           exception := none } : QFutureState Nat) =
      (Except.ok 42,
       { finished := true, canceled := false, result := some 42,
         exception := none }) ∧
    WaitForFinishedOperationImplT.await_resume (some 0)
        ({ finished := true, canceled := false, result := none,
           exception := none } : QFutureState Nat) =
      (Except.error ExtractError.resultNotReady,
       { finished := true, canceled := false, result := none,
         exception := none }) ∧
    WaitForFinishedOperationImplT.await_resume (none : Option Nat)
        ({ finished := true, canceled := false, result := none,
           exception := none } : QFutureState Nat) =
      (Except.error ExtractError.resultNotReady,
       { finished := true, canceled := false, result := none,
         exception := none }) :=
  ⟨(c4_copy_extract_finished (some 0)
      { finished := true, canceled := false, result := some 42,
        exception := none } rfl rfl).1 42 rfl,
   (c4_copy_extract_finished (some 0)
      { finished := true, canceled := false, result := none,
        exception := none } rfl rfl).2 rfl,
   (c4_copy_extract_finished (none : Option Nat)
      { finished := true, canceled := false, result := none,
        exception := none } rfl rfl).2 rfl⟩

/-- C5: when copy-result extraction runs on a future that is not
finished (canceled or invalidated before completing): if the result
type is default-constructible (`defaultVal = some d`) the operation
silently returns the default value `d` with no error; if it is not
(`defaultVal = none`) it fails with the InvalidOrCanceled error.  In
both cases the future is left unchanged. -/
theorem c5_copy_extract_unfinished {T : Type} (defaultVal : Option T)
    (f : QFutureState T) (hfin : f.finished = false) :
    (∀ d, defaultVal = some d →
      WaitForFinishedOperationImplT.await_resume defaultVal f =
        (Except.ok d, f)) ∧
    (defaultVal = none →
      WaitForFinishedOperationImplT.await_resume defaultVal f =
        (Except.error ExtractError.invalidOrCanceled, f)) := by
  constructor
  · intro d hd
    simp [WaitForFinishedOperationImplT.await_resume,
      QFutureState.isFinished, hfin, hd]
  · intro hd
    simp [WaitForFinishedOperationImplT.await_resume,
      QFutureState.isFinished, hfin, hd]

theorem c5_copy_extract_unfinished_witness :
    WaitForFinishedOperationImplT.await_resume (some 0)
        ({ finished := false, canceled := true, result := none,
           exception := none } : QFutureState Nat) =
      (Except.ok 0,
       { finished := false, canceled := true, result := none,
         exception := none }) ∧
    WaitForFinishedOperationImplT.await_resume (none : Option Nat)
        ({ finished := false, canceled := true, result := none,
           exception := none } : QFutureState Nat) =
      (Except.error ExtractError.invalidOrCanceled,
       { finished := false, canceled := true, result := none,
         exception := none }) :=
  ⟨(c5_copy_extract_unfinished (some 0)
      { finished := false, canceled := true, result := none,
        exception := none } rfl).1 0 rfl,
   (c5_copy_extract_unfinished (none : Option Nat)
      { finished := false, canceled := true, result := none,
        exception := none } rfl).2 rfl⟩

/-- C6: `waitForFinished()` and `result()` are behaviorally identical:
they construct the same awaiter variant (the `WaitForFinishedOperation`
alias: copy variant for non-void, void variant for void) over the same
future, and for every future state, every default-constructibility and
both result shapes, their extraction produces the same value, default
or failure and the same final future state. -/
theorem c6_waitForFinished_eq_result {T : Type} (sh : ResultShape)
    (defaultVal : Option T) (f : QFutureState T)
    (fv : QFutureState Unit) :
    QCoroFuture.waitForFinishedAwaiter sh f =
      QCoroFuture.resultAwaiter sh f ∧
    runEntryNonVoid EntryPoint.waitForFinishedEP defaultVal f =
      runEntryNonVoid EntryPoint.resultEP defaultVal f ∧
    runEntryVoid EntryPoint.waitForFinishedEP fv =
      runEntryVoid EntryPoint.resultEP fv :=
  ⟨rfl, rfl, rfl⟩

/-- C7: `takeResult()` uses the move-result variant: on a finished
future (synchronization completing normally) with a result present it
returns that value by destructive extraction — the future's result slot
is emptied, not copied from; on every input where the copy variant does
not reach its successful copy (future not finished, or no result
present) the move variant behaves exactly as the copy variant
(ResultNotReady when finished without a result, default value or
InvalidOrCanceled when not finished); and `takeResult` is not offered
at all when the result type is void. -/
theorem c7_takeResult_move_variant {T : Type} (defaultVal : Option T)
    (f : QFutureState T) :
    (∀ v, f.finished = true → f.exception = none → f.result = some v →
      TakeResultOperation.await_resume defaultVal f =
        (Except.ok v, { f with result := none })) ∧
    (f.finished = false ∨ f.result = none →
      TakeResultOperation.await_resume defaultVal f =
        WaitForFinishedOperationImplT.await_resume defaultVal f) ∧
    (QCoroFuture.takeResultAwaiter f).1 = AwaiterVariant.moveVariant ∧
    EntryPoint.takeResultEP ∉ offeredEntryPoints ResultShape.voidShape := by
  refine ⟨?_, ?_, rfl, by decide⟩
  · intro v hfin hexc hv
    simp [TakeResultOperation.await_resume, QFutureState.isFinished,
      hfin, QFutureState.waitForFinished, hexc,
      QFutureState.isResultReadyAt0, QFutureState.takeResult, hv]
  · intro h
    cases h with
    | inl hfin =>
      simp [TakeResultOperation.await_resume,
        WaitForFinishedOperationImplT.await_resume,
        QFutureState.isFinished, hfin]
    | inr hv =>
      by_cases hfin : f.finished = true
      · cases hexc : f.exception with
        | some e =>
          simp [TakeResultOperation.await_resume,
            WaitForFinishedOperationImplT.await_resume,
            QFutureState.isFinished, hfin,
            QFutureState.waitForFinished, hexc]
        | none =>
          simp [TakeResultOperation.await_resume,
            WaitForFinishedOperationImplT.await_resume,
            QFutureState.isFinished, hfin,
            QFutureState.waitForFinished, hexc,
            QFutureState.isResultReadyAt0, hv]
      · simp [TakeResultOperation.await_resume,
          WaitForFinishedOperationImplT.await_resume,
          QFutureState.isFinished, hfin]

theorem c7_takeResult_move_variant_witness :
    TakeResultOperation.await_resume (some 0)
        ({ finished := true, canceled := false, result := some 42,
           exception := none } : QFutureState Nat) =
      (Except.ok 42,
       { finished := true, canceled := false, result := none,
         exception := none }) ∧
    TakeResultOperation.await_resume (some 0)
        ({ finished := false, canceled := true, result := none,
           exception := none } : QFutureState Nat) =
      WaitForFinishedOperationImplT.await_resume (some 0)
        ({ finished := false, canceled := true, result := none,
           exception := none } : QFutureState Nat) ∧
    EntryPoint.takeResultEP ∉ offeredEntryPoints ResultShape.voidShape :=
  ⟨(c7_takeResult_move_variant (some 0)
      { finished := true, canceled := false, result := some 42,
        exception := none }).1 42 rfl rfl rfl,
   (c7_takeResult_move_variant (some 0)
      { finished := false, canceled := true, result := none,
        exception := none }).2.1 (Or.inl rfl),
   (c7_takeResult_move_variant (some (0 : Nat))
      { finished := false, canceled := true, result := none,
        exception := none }).2.2.2⟩

/-- C8: for a void result type, extraction on a finished future
performs the bounded synchronization step, whose only externally
visible effect is to re-raise the failure the producer recorded, on
this one resume: if a failure `e` is recorded the operation fails with
exactly that failure, propagated verbatim; if none is recorded it
completes normally producing no value.  The future is left unchanged
either way. -/
theorem c8_void_extract_finished (f : QFutureState Unit)
    (hfin : f.finished = true) :
    (∀ e, f.exception = some e →
      WaitForFinishedOperationImplVoid.await_resume f =
        (Except.error (ExtractError.propagated e), f)) ∧
    (f.exception = none →
      WaitForFinishedOperationImplVoid.await_resume f =
        (Except.ok (), f)) := by
  constructor
  · intro e he
    simp [WaitForFinishedOperationImplVoid.await_resume,
      QFutureState.isFinished, hfin, QFutureState.waitForFinished, he]
  · intro he
    simp [WaitForFinishedOperationImplVoid.await_resume,
      QFutureState.isFinished, hfin, QFutureState.waitForFinished, he]

theorem c8_void_extract_finished_witness :
    WaitForFinishedOperationImplVoid.await_resume
        { finished := true, canceled := false, result := none,
          exception := some { msg := "boom" } } =
      (Except.error (ExtractError.propagated { msg := "boom" }),
       { finished := true, canceled := false, result := none,
         exception := some { msg := "boom" } }) ∧
    WaitForFinishedOperationImplVoid.await_resume
        { finished := true, canceled := false, result := none,
          exception := none } =
      (Except.ok (),
       { finished := true, canceled := false, result := none,
         exception := none }) :=
  ⟨(c8_void_extract_finished
      { finished := true, canceled := false, result := none,
        exception := some { msg := "boom" } } rfl).1
      { msg := "boom" } rfl,
   (c8_void_extract_finished
      { finished := true, canceled := false, result := none,
        exception := none } rfl).2 rfl⟩

/-- C10: for a void result type, extraction on a future that was
canceled or invalidated without finishing returns normally with no
effect at all: the synchronization step is skipped, so even a stored
producer failure is not raised, no InvalidOrCanceled failure occurs,
and the future is left unchanged. -/
theorem c10_void_extract_unfinished (f : QFutureState Unit)
    (hfin : f.finished = false) :
    WaitForFinishedOperationImplVoid.await_resume f =
      (Except.ok (), f) := by
  simp [WaitForFinishedOperationImplVoid.await_resume,
    QFutureState.isFinished, hfin]

theorem c10_void_extract_unfinished_witness :
    WaitForFinishedOperationImplVoid.await_resume
        { finished := false, canceled := true, result := none,
          exception := some { msg := "boom" } } =
      (Except.ok (),
       { finished := false, canceled := true, result := none,
         exception := some { msg := "boom" } }) :=
  c10_void_extract_unfinished
    { finished := false, canceled := true, result := none,
      exception := some { msg := "boom" } } rfl

/-- C9 counterexample: the claim that every adapter operation,
including `takeResult`, leaves the future handle unmutated is false:
move-result extraction on the concrete future (finished, not canceled,
result 42 stored, no failure recorded) empties the shared result slot
— the future after the call differs from the future before it. -/
theorem c9_counterexample_takeResult_mutates :
    ¬ (TakeResultOperation.await_resume (some 0)
        ({ finished := true, canceled := false, result := some 42,
           exception := none } : QFutureState Nat)).2 =
      ({ finished := true, canceled := false, result := some 42,
         exception := none } : QFutureState Nat) := by
  decide

/-- C9 amended: the ready-check, the suspend/registration step, and
extraction through the copy and void variants only query the future
handle and never mutate it: the future after each of these operations
is exactly the future before.  The move-result variant (`takeResult`)
is the single exception: when it does not reach its successful
destructive extraction (future not finished, or no result present) it
too leaves the future unchanged, but on a finished future with a
result present (synchronization completing normally) it mutates the
shared future exactly by emptying the result slot, leaving every other
component of the state unchanged. -/
theorem c9_amended_frame {T : Type} (defaultVal : Option T)
    (f : QFutureState T) (fv : QFutureState Unit) :
    (WaitForFinishedOperationBase.await_suspend f).2 = f ∧
    (WaitForFinishedOperationImplT.await_resume defaultVal f).2 = f ∧
    (WaitForFinishedOperationImplVoid.await_resume fv).2 = fv ∧
    (f.finished = false ∨ f.result = none →
      (TakeResultOperation.await_resume defaultVal f).2 = f) ∧
    (∀ v, f.finished = true → f.exception = none → f.result = some v →
      (TakeResultOperation.await_resume defaultVal f).2 =
        { f with result := none }) := by
  refine ⟨rfl, ?_, ?_, ?_, ?_⟩
  · unfold WaitForFinishedOperationImplT.await_resume
    cases hfin : f.isFinished <;> cases hw : f.waitForFinished <;>
      cases hd : defaultVal <;> cases hr : f.result <;>
      simp [QFutureState.isResultReadyAt0, hr]
  · unfold WaitForFinishedOperationImplVoid.await_resume
    cases hfin : fv.isFinished <;> cases hw : fv.waitForFinished <;> simp
  · intro h
    unfold TakeResultOperation.await_resume
    cases h with
    | inl hfin =>
      cases hd : defaultVal <;>
        simp [QFutureState.isFinished, hfin]
    | inr hv =>
      cases hfin : f.isFinished <;> cases hw : f.waitForFinished <;>
        cases hd : defaultVal <;>
        simp [QFutureState.isResultReadyAt0, hv]
  · intro v hfin hexc hv
    simp [TakeResultOperation.await_resume, QFutureState.isFinished,
      hfin, QFutureState.waitForFinished, hexc,
      QFutureState.isResultReadyAt0, QFutureState.takeResult, hv]

theorem c9_amended_frame_witness :
    (WaitForFinishedOperationBase.await_suspend
        ({ finished := true, canceled := false, result := some 42,
           exception := none } : QFutureState Nat)).2 =
      ({ finished := true, canceled := false, result := some 42,
         exception := none } : QFutureState Nat) ∧
    (WaitForFinishedOperationImplT.await_resume (some 0)
        ({ finished := true, canceled := false, result := some 42,
           exception := none } : QFutureState Nat)).2 =
      ({ finished := true, canceled := false, result := some 42,
         exception := none } : QFutureState Nat) ∧
    (TakeResultOperation.await_resume (some 0)
        ({ finished := false, canceled := true, result := none,
           exception := none } : QFutureState Nat)).2 =
      ({ finished := false, canceled := true, result := none,
         exception := none } : QFutureState Nat) ∧
    (TakeResultOperation.await_resume (some 0)
        ({ finished := true, canceled := false, result := some 42,
           exception := none } : QFutureState Nat)).2 =
      ({ finished := true, canceled := false, result := none,
         exception := none } : QFutureState Nat) :=
  ⟨(c9_amended_frame (some 0)
      { finished := true, canceled := false, result := some 42,
        exception := none }
      { finished := true, canceled := false, result := none,
        exception := none }).1,
   (c9_amended_frame (some 0)
      { finished := true, canceled := false, result := some 42,
        exception := none }
      { finished := true, canceled := false, result := none,
        exception := none }).2.1,
   (c9_amended_frame (some 0)
      { finished := false, canceled := true, result := none,
        exception := none }
      { finished := true, canceled := false, result := none,
        exception := none }).2.2.2.1 (Or.inl rfl),
   (c9_amended_frame (some 0)
      { finished := true, canceled := false, result := some 42,
        exception := none }
      { finished := true, canceled := false, result := none,
        exception := none }).2.2.2.2 42 rfl rfl rfl⟩
